import Mathlib

/-!
Shallow embedding of `server/g_calendar.py` (event counting and calendar
rendering for a month view), together with theorems checking the
natural-language specification against it.

The embedding models:
* the Python `calendar` / `datetime` library semantics the source relies on
  (`monthrange`, `Calendar(firstweekday=SUNDAY).monthdayscalendar`,
  `datetime.replace`), via the proleptic Gregorian calendar;
* `get_event_counts`: per-event counting with `try/except KeyError` blocks
  for the timed and the all-day representations, and the pagination loop;
* the layout arithmetic of `get_calendar_image`: strides, anchors and the
  clamped event-dot row, in exact rational arithmetic.
-/

set_option autoImplicit false

namespace GCalendar

/-! ### Constants of the source module -/

/-- The number of days in a week (`DAYS_IN_WEEK = 7`). -/
def DAYS_IN_WEEK : Nat := 7

/-- The maximum number of (partial) weeks in a month (`WEEKS_IN_MONTH = 6`). -/
def WEEKS_IN_MONTH : Nat := 6

/-- The maximum number of events to show (`MAX_EVENTS = 3`). -/
def MAX_EVENTS : Nat := 3

/-- The margin between dots (`DOT_MARGIN = 4`). -/
def DOT_MARGIN : Nat := 4

/-! ### Python `calendar` / `datetime` semantics

The source calls `calendar.monthrange`, `datetime.replace` and
`calendar.Calendar(firstweekday=SUNDAY).monthdayscalendar`. These are
standard-library collaborators; their documented semantics (proleptic
Gregorian calendar, weekday 0 = Monday) are embedded here. -/

/-- Leap-year test of the Gregorian calendar (`calendar.isleap`). -/
def isleap (y : Nat) : Bool :=
  y % 4 == 0 && (y % 100 != 0 || y % 400 == 0)

/-- Day counts per month for a non-leap year, index 0 unused
(`calendar.mdays`). -/
def mdays : List Nat := [0, 31, 28, 31, 30, 31, 30, 31, 31, 30, 31, 30, 31]

/-- Number of days in month `m` of year `y`, accounting for leap years. -/
def daysInMonth (y m : Nat) : Nat :=
  mdays.getD m 0 + (if m == 2 && isleap y then 1 else 0)

/-- Number of days strictly before January 1 of year `y` in the proleptic
Gregorian calendar (ordinal 1 is 0001-01-01). -/
def daysBeforeYear (y : Nat) : Nat :=
  (y - 1) * 365 + (y - 1) / 4 - (y - 1) / 100 + (y - 1) / 400

/-- Number of days of year `y` strictly before the first day of month `m`. -/
def daysBeforeMonth (y m : Nat) : Nat :=
  ((List.range m).map (daysInMonth y)).sum

/-- Proleptic Gregorian ordinal of the date `y-m-d` (`date.toordinal`). -/
def toOrdinal (y m d : Nat) : Nat :=
  daysBeforeYear y + daysBeforeMonth y m + d

/-- Day of the week of the date `y-m-d`, 0 = Monday … 6 = Sunday
(`calendar.weekday`); 0001-01-01 is a Monday. -/
def weekday (y m d : Nat) : Nat :=
  (toOrdinal y m d + 6) % 7

/-- `calendar.monthrange(y, m)`: the pair of the weekday of the first day of
the month (0 = Monday) and the number of days in the month. -/
def monthrange (y m : Nat) : Nat × Nat :=
  (weekday y m 1, daysInMonth y m)

/-- A Python `datetime` value, reduced to the fields the source touches. -/
structure PDateTime where
  year : Nat
  month : Nat
  day : Nat
  hour : Nat
  minute : Nat
  second : Nat
  microsecond : Nat
  deriving DecidableEq, Repr

/-- `datetime.replace(day = d)`: validates the new day against the month's
length and raises `ValueError` (here `none`) when it is out of range. -/
def replaceDay (dt : PDateTime) (d : Nat) : Option PDateTime :=
  if 1 ≤ d ∧ d ≤ daysInMonth dt.year dt.month then
    some { dt with day := d }
  else
    none

/-! ### The time range queried by `get_event_counts`

```
first_day, last_day = monthrange(now.year, now.month)
first_date = now.replace(day=first_day, hour=0, minute=0, second=0,
                         microsecond=0)
last_date = first_date.replace(day=last_day)
```
-/

/-- `first_date` of `get_event_counts`: `now` with the time zeroed and the
day replaced by the FIRST component of `monthrange` (which is the weekday of
the month's first day, not a day of the month). -/
def first_date (now : PDateTime) : Option PDateTime :=
  replaceDay
    { now with hour := 0, minute := 0, second := 0, microsecond := 0 }
    (monthrange now.year now.month).1

/-- `last_date` of `get_event_counts`: `first_date` with the day replaced by
the month's day count. -/
def last_date (now : PDateTime) : Option PDateTime :=
  (first_date now).bind (fun fd => replaceDay fd (monthrange now.year now.month).2)

/-- The `[timeMin, timeMax]` pair sent to the data source, `none` when the
computation raises `ValueError`. -/
def queryRange (now : PDateTime) : Option (PDateTime × PDateTime) :=
  (first_date now).bind (fun fd => (last_date now).map (fun ld => (fd, ld)))

/-! ### Events and per-day counting

`get_event_counts` reads `event["start"]["dateTime"]`, `event["end"]["dateTime"]`,
`event["start"]["date"]` and `event["end"]["date"]` from the JSON response and
feeds them to `dateutil.parser.parse` resp. `datetime.strptime(s, "%Y-%m-%d")`.
A missing key raises `KeyError` (caught by the surrounding `try`); a present
but unparsable string makes the parser raise `ValueError` (not caught).
The library parsers are embedded at their interface: a field value either
parses to a date or is garbage that raises `ValueError`. -/

/-- A date value as used by the counting code: only `year`, `month` and `day`
matter (`start.day` / `end.day` are the only attributes read). -/
structure PDate where
  year : Nat
  month : Nat
  day : Nat
  deriving DecidableEq, Repr

/-- A date/datetime string of the wire format, abstracted at the parser
interface: either well-formed (parses to `d`) or unparsable garbage. -/
inductive DTString where
  | valid (d : PDate)
  | invalid (s : String)
  deriving DecidableEq, Repr

/-- One event marker of the response: the nullable `dateTime` and `date`
fields (a missing field raises `KeyError` on lookup). -/
structure Marker where
  dateTime : Option DTString := none
  date : Option DTString := none
  deriving DecidableEq, Repr

/-- One calendar event of the response: its `start` and `end` markers
(`stop` stands for the Python key `end`, a Lean keyword). -/
structure Event where
  start : Marker
  stop : Marker
  deriving DecidableEq, Repr

/-- `dateutil.parser.parse`: the parsed datetime for a well-formed string,
`ValueError` (here `Except.error`) for garbage. -/
def parseDT : DTString → Except String PDate
  | .valid d => .ok d
  | .invalid s => .error s

/-- `datetime.strptime(s, "%Y-%m-%d")`: the parsed date for a well-formed
string, `ValueError` for garbage. -/
def strptimeDate : DTString → Except String PDate
  | .valid d => .ok d
  | .invalid s => .error s

/-- `collections.Counter` keyed by day of month: a total map with default 0. -/
abbrev Counter := Nat → Nat

/-- The empty counter. -/
def Counter.empty : Counter := fun _ => 0

/-- `event_counts[k] += 1`. -/
def Counter.bump (c : Counter) (k : Nat) : Counter :=
  fun d => if d = k then c d + 1 else c d

/-- The first `try` block of the event loop (timed events):

```
try:
    start = parse(event["start"]["dateTime"])
    event_counts[start.day] += 1
    end = parse(event["end"]["dateTime"])
    if start.day != end.day:
        event_counts[end.day] += 1
except KeyError:
    pass
```

A missing field is `KeyError`: caught, leaving the counts accumulated so far.
A parse failure is `ValueError`: NOT caught, it escapes as `Except.error`. -/
def countTimed (counts : Counter) (e : Event) : Except String Counter :=
  match e.start.dateTime with
  | none => .ok counts
  | some s1 =>
    match parseDT s1 with
    | .error msg => .error msg
    | .ok start =>
      let counts := counts.bump start.day
      match e.stop.dateTime with
      | none => .ok counts
      | some s2 =>
        match parseDT s2 with
        | .error msg => .error msg
        | .ok stop =>
          if start.day ≠ stop.day then .ok (counts.bump stop.day)
          else .ok counts

/-- The second `try` block of the event loop (all-day events), identical in
shape but reading the `date` fields with `strptime`. It runs unconditionally
after the first block. -/
def countAllDay (counts : Counter) (e : Event) : Except String Counter :=
  match e.start.date with
  | none => .ok counts
  | some s1 =>
    match strptimeDate s1 with
    | .error msg => .error msg
    | .ok start =>
      let counts := counts.bump start.day
      match e.stop.date with
      | none => .ok counts
      | some s2 =>
        match strptimeDate s2 with
        | .error msg => .error msg
        | .ok stop =>
          if start.day ≠ stop.day then .ok (counts.bump stop.day)
          else .ok counts

/-- One iteration of `for event in response["items"]`: the timed block, then
(always) the all-day block; an uncaught `ValueError` aborts everything. -/
def processEvent (counts : Counter) (e : Event) : Except String Counter :=
  match countTimed counts e with
  | .error msg => .error msg
  | .ok counts2 => countAllDay counts2 e

/-- The whole `for event in response["items"]` loop over one page. -/
def processItems (counts : Counter) : List Event → Except String Counter
  | [] => .ok counts
  | e :: rest =>
    match processEvent counts e with
    | .error msg => .error msg
    | .ok counts2 => processItems counts2 rest

/-! ### Pagination

```
page_token = None
while True:
    response = request.execute()
    ... count events ...
    page_token = response.get("nextPageToken")
    if not page_token:
        break
```

The data source is modelled as the sequence of responses it returns, one per
request; each response carries its items and its optional `nextPageToken`.
`if not page_token` is Python truthiness: the loop stops when the token is
absent OR the empty string. -/

/-- One response page: `items` and the optional `nextPageToken`. -/
structure Page where
  items : List Event
  nextPageToken : Option String := none
  deriving DecidableEq, Repr

/-- The `while True` pagination loop over the responses the source returns. -/
def runPages (counts : Counter) : List Page → Except String Counter
  | [] => .ok counts
  | p :: rest =>
    match processItems counts p.items with
    | .error msg => .error msg
    | .ok counts2 =>
      match p.nextPageToken with
      | none => .ok counts2
      | some t => if t = "" then .ok counts2 else runPages counts2 rest

/-- `get_event_counts(now)` given the responses the data source serves:
computes the query time range (raising `ValueError` for months whose first
weekday index is 0), then aggregates the pages into the counter. -/
def get_event_counts (now : PDateTime) (pages : List Page) :
    Except String Counter :=
  match first_date now with
  | none => .error "ValueError: day is out of range for month"
  | some _ => runPages Counter.empty pages

/-- Observation helper: the count at day `d` of a finished aggregation,
`none` when the aggregation raised. -/
def countAt (r : Except String Counter) (d : Nat) : Option Nat :=
  match r with
  | .ok c => some (c d)
  | .error _ => none

/-! ### The month grid of `get_calendar_image`

```
calendar = Calendar(firstweekday=SUNDAY)
weeks = calendar.monthdayscalendar(now.year, now.month)
```

`monthdayscalendar` returns the month as full weeks of 7 day numbers, weeks
starting on Sunday, with day 0 for slots belonging to adjacent months. -/

/-- Split a flat slot list into weeks of 7; structural recursion on a fuel
that each step decrements while consuming at least one element, so any fuel
of at least the list's length is enough. -/
def chunk7Go : Nat → List Nat → List (List Nat)
  | 0, _ => []
  | _ + 1, [] => []
  | fuel + 1, a :: rest => (a :: rest.take 6) :: chunk7Go fuel (rest.drop 6)

/-- Split a flat slot list into weeks of 7. -/
def chunk7 (l : List Nat) : List (List Nat) :=
  chunk7Go l.length l

/-- Number of leading empty slots of the first week: the offset of the
month's first day from Sunday (`firstweekday = SUNDAY = 6`, weekday
convention 0 = Monday), i.e. `(weekday(y, m, 1) - 6) % 7`. -/
def firstSundayLead (y m : Nat) : Nat :=
  (weekday y m 1 + 1) % 7

/-- The grid as a function of the lead length and the month length: `lead`
zeros, the days `1..n`, and zeros padding the last week to 7 slots. -/
def monthGridAux (lead n : Nat) : List (List Nat) :=
  chunk7 (List.replicate lead 0 ++ (List.range n).map (· + 1) ++
    List.replicate ((7 - (lead + n) % 7) % 7) 0)

/-- `Calendar(firstweekday=SUNDAY).monthdayscalendar(y, m)`. -/
def monthdayscalendar (y m : Nat) : List (List Nat) :=
  monthGridAux (firstSundayLead y m) (daysInMonth y m)

/-! ### Layout arithmetic of `get_calendar_image`

```
x_stride = width / (DAYS_IN_WEEK + 1)
y_stride = height / (WEEKS_IN_MONTH + 1)
...
x = (day_index + 1) * x_stride
y = (week_index + 1) * y_stride
```

Python `/` is exact on these inputs up to float rounding; the embedding uses
exact rational arithmetic as the spec's reference semantics. -/

/-- `x_stride = width / (DAYS_IN_WEEK + 1)`. -/
def x_stride (width : ℚ) : ℚ :=
  width / ((DAYS_IN_WEEK : ℚ) + 1)

/-- `y_stride = height / (WEEKS_IN_MONTH + 1)`. -/
def y_stride (height : ℚ) : ℚ :=
  height / ((WEEKS_IN_MONTH : ℚ) + 1)

/-- Pixel anchor of the day slot at 0-based `(week_index, day_index)`. -/
def anchor (width height : ℚ) (week_index day_index : Nat) : ℚ × ℚ :=
  (((day_index : ℚ) + 1) * x_stride width,
   ((week_index : ℚ) + 1) * y_stride height)

/-- `num_events = min(MAX_EVENTS, event_counts[day])`; a day absent from the
counter reads as 0. -/
def num_events (event_counts : Counter) (day : Nat) : Nat :=
  min MAX_EVENTS (event_counts day)

/-- The horizontal offsets of the `draw.bitmap` calls for one day's dots:

```
if num_events > 0:
    events_width = (num_events * dot.size[0] + (num_events - 1) * DOT_MARGIN)
    for event_index in range(num_events):
        event_offset = (event_index * (dot.size[0] + DOT_MARGIN)
                        - events_width / 2)
        ... draw.bitmap(...)
```

`dotWidth` is `dot.size[0]`, the width of the external dot asset. One list
element per `draw.bitmap` call. -/
def dotOffsets (n : Nat) (dotWidth : Nat) : List ℚ :=
  if n > 0 then
    let events_width : ℚ := (n : ℚ) * dotWidth + ((n - 1 : Nat) : ℚ) * DOT_MARGIN
    (List.range n).map (fun (i : Nat) =>
      (i : ℚ) * ((dotWidth : ℚ) + DOT_MARGIN) - events_width / 2)
  else []

/-! ### Concrete fixtures used by witnesses and counterexamples -/

/-- An event whose `start.dateTime` is present but unparsable. -/
def badEvent : Event :=
  { start := { dateTime := some (.invalid "not a date") }, stop := {} }

/-- A well-formed timed event on 2026-10-07. -/
def goodEvent : Event :=
  { start := { dateTime := some (.valid ⟨2026, 10, 7⟩) },
    stop := { dateTime := some (.valid ⟨2026, 10, 7⟩) } }

/-- An event missing all four marker fields. -/
def emptyEvent : Event :=
  { start := {}, stop := {} }

/-- An event carrying BOTH the timed and the all-day representation, all
four strings parsable, everything on day 7. -/
def doubleEvent : Event :=
  { start := { dateTime := some (.valid ⟨2026, 10, 7⟩),
               date := some (.valid ⟨2026, 10, 7⟩) },
    stop := { dateTime := some (.valid ⟨2026, 10, 7⟩),
              date := some (.valid ⟨2026, 10, 7⟩) } }

/-- A well-formed single-day timed event on day `d` of October 2026. -/
def eventOnDay (d : Nat) : Event :=
  { start := { dateTime := some (.valid ⟨2026, 10, d⟩) },
    stop := { dateTime := some (.valid ⟨2026, 10, d⟩) } }

/-- An event whose start has a parsable `dateTime` but whose end marker and
all-day fields are all missing. -/
def partialEvent : Event :=
  { start := { dateTime := some (.valid ⟨2026, 10, 7⟩) }, stop := {} }

/-- A timed event from 2026-01-05 to 2026-02-05: a genuine multi-day span
whose end day-of-month equals its start day-of-month. -/
def janToFebEvent : Event :=
  { start := { dateTime := some (.valid ⟨2026, 1, 5⟩) },
    stop := { dateTime := some (.valid ⟨2026, 2, 5⟩) } }

/-- A timed event from day 7 to day 9 of October 2026. -/
def twoDayEvent : Event :=
  { start := { dateTime := some (.valid ⟨2026, 10, 7⟩) },
    stop := { dateTime := some (.valid ⟨2026, 10, 9⟩) } }

/-- A response page carrying one day-5 event and a nonempty cursor. -/
def pageOne : Page :=
  { items := [eventOnDay 5], nextPageToken := some "go" }

/-- A response page carrying the identical day-5 event and no cursor. -/
def pageTwo : Page :=
  { items := [eventOnDay 5] }

/-! ### Helper lemmas -/

theorem Counter.bump_apply (c : Counter) (k d : Nat) :
    c.bump k d = if d = k then c d + 1 else c d := rfl

theorem length_dotOffsets (n dotWidth : Nat) :
    (dotOffsets n dotWidth).length = n := by
  unfold dotOffsets
  split
  · simp only [List.length_map, List.length_range]
  · simp only [List.length_nil]
    omega

theorem daysInMonth_bounds (y m : Nat) (h1 : 1 ≤ m) (h2 : m ≤ 12) :
    28 ≤ daysInMonth y m ∧ daysInMonth y m ≤ 31 := by
  interval_cases m <;> cases h : isleap y <;> simp [daysInMonth, mdays, h]

/-- The grid invariants hold for every lead length below 7 and every month
length from 28 to 31; the 28 cases are checked by evaluation. -/
theorem gridAux_props : ∀ lead < 7, ∀ k < 4,
    (4 ≤ (monthGridAux lead (28 + k)).length ∧
      (monthGridAux lead (28 + k)).length ≤ 6) ∧
    (∀ w ∈ monthGridAux lead (28 + k), w.length = 7) ∧
    ((monthGridAux lead (28 + k)).flatten.filter (fun d => d != 0) =
      (List.range (28 + k)).map (· + 1)) ∧
    (∀ w ∈ ((monthGridAux lead (28 + k)).drop 1).dropLast, ∀ d ∈ w, d ≠ 0) := by
  decide

/-! ### Claim theorems -/

/-- C1: the spec says the queried range starts at day 1 of the month at
midnight, and the code's variable names and comment agree with that intent,
but `monthrange` returns `(weekday of day 1, days in month)` and the code
uses the WEEKDAY as a day-of-month. For `now = 2026-10-12` (October 2026
starts on a Thursday, weekday 3) the queried range starts at 2026-10-03, not
2026-10-01; for `now = 2026-06-15` (June 2026 starts on a Monday, weekday 0)
`replace(day=0)` raises `ValueError`. The upper bound (start of the month's
last calendar day) is computed as the spec says. -/
theorem c1_first_date_uses_weekday_as_day :
    queryRange ⟨2026, 10, 12, 9, 30, 0, 0⟩ =
      some (⟨2026, 10, 3, 0, 0, 0, 0⟩, ⟨2026, 10, 31, 0, 0, 0, 0⟩) ∧
    queryRange ⟨2026, 6, 15, 12, 0, 0, 0⟩ = none ∧
    monthrange 2026 10 = (3, 31) ∧
    monthrange 2026 6 = (0, 30) := by
  refine ⟨?_, ?_, ?_, ?_⟩ <;> decide

/-- C7: for every day slot the number of dot-draw calls is
`min(MAX_EVENTS, event_counts[day])` (absent days read as 0 because the
counter is total with default 0); in particular counts 0, 1, 3, 3, 10 give
0, 1, 3, 3, 3 calls. -/
theorem c7_dot_draw_count :
    (∀ (event_counts : Counter) (day dotWidth : Nat),
      (dotOffsets (num_events event_counts day) dotWidth).length =
        min MAX_EVENTS (event_counts day)) ∧
    ((List.map (fun c => (dotOffsets (num_events (fun _ => c) 15) 10).length)
        [0, 1, 3, 3, 10]) = [0, 1, 3, 3, 3]) := by
  constructor
  · intro event_counts day dotWidth
    rw [length_dotOffsets]
    rfl
  · rfl

/-- C8: the anchor of the slot at 0-based `(week_index, day_index)` is
exactly `((day_index+1) * width/(DAYS_IN_WEEK+1),
(week_index+1) * height/(WEEKS_IN_MONTH+1))` in rational arithmetic; with
`width = 700` the x stride is 87.5 and the anchor x is 87.5 in column 0 and
612.5 in column 6. -/
theorem c8_anchor_arithmetic :
    (∀ (width height : ℚ) (week_index day_index : Nat),
      anchor width height week_index day_index =
        (((day_index : ℚ) + 1) * (width / ((DAYS_IN_WEEK : ℚ) + 1)),
         ((week_index : ℚ) + 1) * (height / ((WEEKS_IN_MONTH : ℚ) + 1)))) ∧
    x_stride 700 = 87.5 ∧
    (∀ (height : ℚ) (week_index : Nat),
      (anchor 700 height week_index 0).1 = 87.5 ∧
      (anchor 700 height week_index 6).1 = 612.5) := by
  refine ⟨fun _ _ _ _ => rfl, ?_, fun height week_index => ⟨?_, ?_⟩⟩ <;>
    norm_num [anchor, x_stride, DAYS_IN_WEEK]

/-- C2 counterexample: the code catches only `KeyError`; an unparsable date
string raises `ValueError`, which escapes `get_event_counts`. A batch with
one garbage-string event followed by a well-formed event aborts the whole
aggregation instead of skipping the bad event and counting the good one. -/
theorem c2_unparsable_string_aborts :
    get_event_counts ⟨2026, 10, 12, 9, 30, 0, 0⟩
      [{ items := [badEvent, goodEvent] }] = .error "not a date" := rfl

/-- C2 (amended): an event missing its representations is skipped silently
(a missing `start.dateTime` and `start.date` raise `KeyError` in both
blocks, both caught) and the remaining events are still processed — but an
event carrying an unparsable date string raises `ValueError`, which is not
caught and aborts the aggregation. -/
theorem c2_missing_keys_skipped (counts : Counter) (pre post : List Event)
    (e : Event) (h1 : e.start.dateTime = none) (h2 : e.start.date = none)
    (c : Counter) (e2 : Event) (s : String)
    (h3 : e2.start.dateTime = some (.invalid s)) :
    processItems counts (pre ++ e :: post) = processItems counts (pre ++ post) ∧
    processEvent c e2 = .error s := by
  constructor
  · induction pre generalizing counts with
    | nil =>
      have hskip : processEvent counts e = .ok counts := by
        simp [processEvent, countTimed, countAllDay, h1, h2]
      simp [processItems, hskip]
    | cons a pre ih =>
      simp only [List.cons_append, processItems]
      cases processEvent counts a with
      | error msg => rfl
      | ok c2 => exact ih c2
  · simp [processEvent, countTimed, h3, parseDT]

/-- C2 witness: `c2_missing_keys_skipped` applied to a concrete batch. -/
theorem c2_missing_keys_skipped_witness :
    processItems Counter.empty ([goodEvent] ++ emptyEvent :: [goodEvent]) =
      processItems Counter.empty ([goodEvent] ++ [goodEvent]) ∧
    processEvent Counter.empty badEvent = .error "not a date" :=
  c2_missing_keys_skipped Counter.empty [goodEvent] [goodEvent] emptyEvent
    rfl rfl Counter.empty badEvent "not a date" rfl

/-- C3 counterexample: the two `try` blocks run in sequence, so the all-day
representation is attempted even when the timed one succeeded. An event
carrying both a parsable `dateTime` and a parsable `date` (all on day 7)
increments day 7 twice, not once. -/
theorem c3_both_representations_counted_twice :
    countAt (processEvent Counter.empty doubleEvent) 7 = some 2 := rfl

/-- C3 (amended): the all-day block runs unconditionally after the timed
block; an event with both representations fully parsable (each same-day)
contributes one increment per representation, i.e. its start day is bumped
twice. Only under the data-source invariant that exactly one representation
is populated does an event contribute exactly once. -/
theorem c3_all_day_attempted_unconditionally (counts : Counter) (e : Event)
    (st en sd ed : PDate)
    (h1 : e.start.dateTime = some (.valid st))
    (h2 : e.stop.dateTime = some (.valid en))
    (h3 : e.start.date = some (.valid sd))
    (h4 : e.stop.date = some (.valid ed))
    (h5 : st.day = en.day) (h6 : sd.day = ed.day) :
    processEvent counts e = .ok ((counts.bump st.day).bump sd.day) := by
  simp [processEvent, countTimed, countAllDay, h1, h2, h3, h4,
    parseDT, strptimeDate, h5, h6]

/-- C3 witness: `c3_all_day_attempted_unconditionally` at `doubleEvent`. -/
theorem c3_all_day_attempted_unconditionally_witness :
    processEvent Counter.empty doubleEvent =
      .ok ((Counter.empty.bump 7).bump 7) :=
  c3_all_day_attempted_unconditionally Counter.empty doubleEvent
    ⟨2026, 10, 7⟩ ⟨2026, 10, 7⟩ ⟨2026, 10, 7⟩ ⟨2026, 10, 7⟩
    rfl rfl rfl rfl rfl rfl

/-- C9: the per-event update is not atomic. For an event whose start has a
parsable `dateTime` but whose end marker has no `dateTime` (and no all-day
representation), the start day is incremented before the `KeyError` on the
end lookup is caught, and the increment is kept. -/
theorem c9_partial_increment_kept (counts : Counter) (e : Event) (st : PDate)
    (h1 : e.start.dateTime = some (.valid st))
    (h2 : e.stop.dateTime = none)
    (h3 : e.start.date = none) :
    processEvent counts e = .ok (counts.bump st.day) ∧
    countAt (processEvent counts e) st.day = some (counts st.day + 1) := by
  have h : processEvent counts e = .ok (counts.bump st.day) := by
    simp [processEvent, countTimed, countAllDay, h1, h2, h3, parseDT]
  refine ⟨h, ?_⟩
  rw [h]
  simp [countAt, Counter.bump]

/-- C9 witness: `c9_partial_increment_kept` at `partialEvent`. -/
theorem c9_partial_increment_kept_witness :
    processEvent Counter.empty partialEvent = .ok (Counter.empty.bump 7) ∧
    countAt (processEvent Counter.empty partialEvent) 7 = some (Counter.empty 7 + 1) :=
  c9_partial_increment_kept Counter.empty partialEvent ⟨2026, 10, 7⟩ rfl rfl rfl

/-- C10: the multi-day test is `start.day != end.day`, day-of-month only.
A timed event whose end lies in a different month or year but shares the
start's day-of-month is treated like a same-day event: only the start day is
incremented, by exactly 1. -/
theorem c10_day_of_month_comparison_only (counts : Counter) (e : Event)
    (st en : PDate)
    (h1 : e.start.dateTime = some (.valid st))
    (h2 : e.stop.dateTime = some (.valid en))
    (h3 : e.start.date = none)
    (h4 : st.day = en.day)
    (h5 : st.month ≠ en.month ∨ st.year ≠ en.year) :
    processEvent counts e = .ok (counts.bump st.day) ∧
    countAt (processEvent counts e) st.day = some (counts st.day + 1) := by
  have h : processEvent counts e = .ok (counts.bump st.day) := by
    simp [processEvent, countTimed, countAllDay, h1, h2, h3, parseDT, h4]
  refine ⟨h, ?_⟩
  rw [h]
  simp [countAt, Counter.bump]

/-- C10 witness: `c10_day_of_month_comparison_only` at the January 5 →
February 5 event. -/
theorem c10_day_of_month_comparison_only_witness :
    processEvent Counter.empty janToFebEvent = .ok (Counter.empty.bump 5) ∧
    countAt (processEvent Counter.empty janToFebEvent) 5 =
      some (Counter.empty 5 + 1) :=
  c10_day_of_month_comparison_only Counter.empty janToFebEvent
    ⟨2026, 1, 5⟩ ⟨2026, 2, 5⟩ rfl rfl rfl rfl (Or.inl (by decide))

/-- C4: for an event populated under exactly one representation whose start
and end both parse (start day `s`, end day `e`): if `s = e` the count for
`s` increases by exactly 1 and no other day changes; if `s ≠ e` the counts
for `s` and `e` each increase by exactly 1 and no other day changes,
regardless of the span length. -/
theorem c4_endpoint_increments (counts : Counter) (e : Event) (st en : PDate)
    (hrep : (e.start.dateTime = some (.valid st) ∧
             e.stop.dateTime = some (.valid en) ∧ e.start.date = none) ∨
            (e.start.dateTime = none ∧ e.start.date = some (.valid st) ∧
             e.stop.date = some (.valid en))) :
    (st.day = en.day →
      countAt (processEvent counts e) st.day = some (counts st.day + 1) ∧
      ∀ d, d ≠ st.day → countAt (processEvent counts e) d = some (counts d)) ∧
    (st.day ≠ en.day →
      countAt (processEvent counts e) st.day = some (counts st.day + 1) ∧
      countAt (processEvent counts e) en.day = some (counts en.day + 1) ∧
      ∀ d, d ≠ st.day → d ≠ en.day →
        countAt (processEvent counts e) d = some (counts d)) := by
  rcases hrep with ⟨h1, h2, h3⟩ | ⟨h1, h2, h3⟩ <;> by_cases hd : st.day = en.day
  · have hpe : processEvent counts e = .ok (counts.bump st.day) := by
      simp [processEvent, countTimed, countAllDay, h1, h2, h3, parseDT, hd]
    refine ⟨fun _ => ⟨?_, ?_⟩, fun hne => absurd hd hne⟩
    · simp [countAt, hpe, Counter.bump_apply]
    · intro d hdd
      simp [countAt, hpe, Counter.bump_apply, hdd]
  · have hpe : processEvent counts e = .ok ((counts.bump st.day).bump en.day) := by
      simp [processEvent, countTimed, countAllDay, h1, h2, h3, parseDT, hd]
    refine ⟨fun heq => absurd heq hd, fun _ => ⟨?_, ?_, ?_⟩⟩
    · simp [countAt, hpe, Counter.bump_apply, hd]
    · simp [countAt, hpe, Counter.bump_apply, Ne.symm hd]
    · intro d hd1 hd2
      simp [countAt, hpe, Counter.bump_apply, hd1, hd2]
  · have hpe : processEvent counts e = .ok (counts.bump st.day) := by
      simp [processEvent, countTimed, countAllDay, h1, h2, h3, strptimeDate, hd]
    refine ⟨fun _ => ⟨?_, ?_⟩, fun hne => absurd hd hne⟩
    · simp [countAt, hpe, Counter.bump_apply]
    · intro d hdd
      simp [countAt, hpe, Counter.bump_apply, hdd]
  · have hpe : processEvent counts e = .ok ((counts.bump st.day).bump en.day) := by
      simp [processEvent, countTimed, countAllDay, h1, h2, h3, strptimeDate, hd]
    refine ⟨fun heq => absurd heq hd, fun _ => ⟨?_, ?_, ?_⟩⟩
    · simp [countAt, hpe, Counter.bump_apply, hd]
    · simp [countAt, hpe, Counter.bump_apply, Ne.symm hd]
    · intro d hd1 hd2
      simp [countAt, hpe, Counter.bump_apply, hd1, hd2]

/-- C4 witness: `c4_endpoint_increments` at the two-day event 2026-10-07
to 2026-10-09. -/
theorem c4_endpoint_increments_witness :
    ((7 : Nat) = 9 →
      countAt (processEvent Counter.empty twoDayEvent) 7 =
        some (Counter.empty 7 + 1) ∧
      ∀ d, d ≠ 7 → countAt (processEvent Counter.empty twoDayEvent) d =
        some (Counter.empty d)) ∧
    ((7 : Nat) ≠ 9 →
      countAt (processEvent Counter.empty twoDayEvent) 7 =
        some (Counter.empty 7 + 1) ∧
      countAt (processEvent Counter.empty twoDayEvent) 9 =
        some (Counter.empty 9 + 1) ∧
      ∀ d, d ≠ 7 → d ≠ 9 →
        countAt (processEvent Counter.empty twoDayEvent) d =
          some (Counter.empty d)) :=
  c4_endpoint_increments Counter.empty twoDayEvent
    ⟨2026, 10, 7⟩ ⟨2026, 10, 9⟩ (Or.inl ⟨rfl, rfl, rfl⟩)

/-- C5 counterexample: the stop test is Python truthiness (`if not
page_token`), so a response carrying the EMPTY-STRING cursor also stops the
loop: with a first page whose cursor is `""`, the day-20 event served on the
second page is never requested and its count stays 0, contradicting "stops
exactly when no cursor is returned". -/
theorem c5_empty_token_stops :
    countAt (runPages Counter.empty
      [{ items := [eventOnDay 5], nextPageToken := some "" },
       { items := [eventOnDay 20] }]) 20 = some 0 := rfl

/-- C5 (amended): the loop requests a further page exactly when the response
carries a nonempty cursor, and stops when the cursor is absent OR the empty
string; no deduplication is performed, so the result is the fold of the
per-event increments over every delivered page — the identical event served
on two consecutive pages is counted twice. -/
theorem c5_pagination_loop (counts : Counter) (p : Page) (rest : List Page)
    (t : String) (h1 : p.nextPageToken = some t) (h2 : t ≠ "")
    (q : Page) (rest2 : List Page)
    (h3 : q.nextPageToken = none ∨ q.nextPageToken = some "") :
    (runPages counts (p :: rest) =
       match processItems counts p.items with
       | .error msg => .error msg
       | .ok c2 => runPages c2 rest) ∧
    (runPages counts (q :: rest2) = processItems counts q.items) ∧
    countAt (runPages Counter.empty [pageOne, pageTwo]) 5 = some 2 := by
  refine ⟨?_, ?_, rfl⟩
  · cases hpi : processItems counts p.items with
    | error msg => simp [runPages, hpi]
    | ok c2 => simp [runPages, hpi, h1, h2]
  · rcases h3 with h3 | h3
    · cases hpi : processItems counts q.items with
      | error msg => simp [runPages, hpi]
      | ok c2 => simp [runPages, hpi, h3]
    · cases hpi : processItems counts q.items with
      | error msg => simp [runPages, hpi]
      | ok c2 => simp [runPages, hpi, h3]

/-- C5 witness: `c5_pagination_loop` at the concrete duplicated pages. -/
theorem c5_pagination_loop_witness :
    (runPages Counter.empty (pageOne :: [pageTwo]) =
       match processItems Counter.empty pageOne.items with
       | .error msg => .error msg
       | .ok c2 => runPages c2 [pageTwo]) ∧
    (runPages Counter.empty (pageTwo :: []) =
       processItems Counter.empty pageTwo.items) ∧
    countAt (runPages Counter.empty [pageOne, pageTwo]) 5 = some 2 :=
  c5_pagination_loop Counter.empty pageOne [pageTwo] "go" rfl (by decide)
    pageTwo [] (Or.inl rfl)

/-- C6: for every year and every month 1..12, the Sunday-first month grid
has 4 to 6 rows of exactly 7 slots each, its non-empty slot values are
exactly the days `1..daysInMonth` in order (hence with no duplicates), and
empty slots occur only in the first and last rows. -/
theorem c6_month_grid (y m : Nat) (h1 : 1 ≤ m) (h2 : m ≤ 12) :
    (4 ≤ (monthdayscalendar y m).length ∧ (monthdayscalendar y m).length ≤ 6) ∧
    (∀ w ∈ monthdayscalendar y m, w.length = 7) ∧
    ((monthdayscalendar y m).flatten.filter (fun d => d != 0) =
      (List.range (daysInMonth y m)).map (· + 1)) ∧
    (∀ w ∈ ((monthdayscalendar y m).drop 1).dropLast, ∀ d ∈ w, d ≠ 0) := by
  obtain ⟨k, hk, hk4⟩ : ∃ k, daysInMonth y m = 28 + k ∧ k < 4 := by
    have hb := daysInMonth_bounds y m h1 h2
    exact ⟨daysInMonth y m - 28, by omega, by omega⟩
  unfold monthdayscalendar
  rw [hk]
  exact gridAux_props (firstSundayLead y m) (Nat.mod_lt _ (by norm_num)) k hk4

/-- C6 witness: `c6_month_grid` at October 2026. -/
theorem c6_month_grid_witness :
    ((1 : Nat) ≤ 10 ∧ (10 : Nat) ≤ 12) ∧
    ((4 ≤ (monthdayscalendar 2026 10).length ∧
        (monthdayscalendar 2026 10).length ≤ 6) ∧
     (∀ w ∈ monthdayscalendar 2026 10, w.length = 7) ∧
     ((monthdayscalendar 2026 10).flatten.filter (fun d => d != 0) =
       (List.range (daysInMonth 2026 10)).map (· + 1)) ∧
     (∀ w ∈ ((monthdayscalendar 2026 10).drop 1).dropLast, ∀ d ∈ w, d ≠ 0)) :=
  ⟨⟨by decide, by decide⟩, c6_month_grid 2026 10 (by decide) (by decide)⟩

end GCalendar
